import Mathlib

set_option maxRecDepth 4000

/-!
Verification development for the smart_whatsapping repository.

The development shallowly embeds three parts of the code base:

* `redis_manager.py` — the TTL key-value store wrapper (`RedisManager`),
  modelled as a connected flag plus an association list of keys to JSON-like
  values.  TTL-based expiry is not part of the model; an expired entry is
  simply an absent entry, which is how every caller observes it.
* `conversation_state.py` — the per-customer conversation session manager
  (`ConversationState`).  `datetime.now()` and `uuid` are passed in as
  explicit `now` / `session_id` arguments.  Operations that can raise a
  Python exception (`update_state`'s dotted-path traversal, and the
  operations built on it) return `Except Unit`, with `.error ()` standing
  for an uncaught exception.
* `test_comparison.py` — the normalizing customer manager
  (`NewCustomerManager`), which the specification calls the identity
  resolver (`resolve_or_create`), together with its order bookkeeping.
* `support_flow.py` — the `_handle_confirmation` terminal step of the
  support flow.

Python `float` order amounts are modelled as rationals; the claims proved
about them (idempotence of recalculation) do not depend on rounding.
-/

/-- JSON-like values as stored in the session store and produced by
`json.loads`: null, booleans, integers, strings, arrays, and objects
(association lists in insertion order, with unique keys, exactly as a
Python `dict` iterates). -/
inductive Val where
  | null : Val
  | b : Bool → Val
  | i : Int → Val
  | s : String → Val
  | list : List Val → Val
  | dict : List (String × Val) → Val

/-- Python `d[k]` / `d.get(k)` on an insertion-ordered dict. -/
def dictGet (fs : List (String × Val)) (k : String) : Option Val :=
  match fs with
  | [] => none
  | (k2, v) :: rest => if k2 = k then some v else dictGet rest k

/-- Python `d[k] = v`: replace the value in place if the key exists,
append the pair otherwise. -/
def dictSet (fs : List (String × Val)) (k : String) (v : Val) : List (String × Val) :=
  match fs with
  | [] => [(k, v)]
  | (k2, w) :: rest => if k2 = k then (k2, v) :: rest else (k2, w) :: dictSet rest k v

/-- Removal of a key, as done by the store's `delete`. -/
def dictDel (fs : List (String × Val)) (k : String) : List (String × Val) :=
  match fs with
  | [] => []
  | (k2, w) :: rest => if k2 = k then dictDel rest k else (k2, w) :: dictDel rest k

/-- Python truthiness of a JSON-like value (`if state:`): null, `False`,
`0`, `""`, `[]` and `\x7b\x7d` are falsy. -/
def truthy : Val → Bool
  | .null => false
  | .b x => x
  | .i n => n != 0
  | .s t => t != ""
  | .list xs => !xs.isEmpty
  | .dict fs => !fs.isEmpty

/-- The state of `redis_manager.RedisManager`: whether `connect` succeeded,
and the key space.  Stored values are kept as `Val`; the JSON
serialize/deserialize round trip of `set_data`/`get_data` is the identity
on such values. -/
structure RedisManager where
  is_connected : Bool
  data : List (String × Val)

/-- `RedisManager.set_data`: returns `False` and stores nothing when not
connected, otherwise writes the key and returns `True`.  The `ttl`
argument only schedules expiry, which the model renders as later absence,
so it is ignored here. -/
def RedisManager.set_data (r : RedisManager) (key : String) (v : Val) (_ttl : Int := 1800) :
    Bool × RedisManager :=
  if r.is_connected then (true, { r with data := dictSet r.data key v })
  else (false, r)

/-- `RedisManager.get_data`: `None` when not connected or the key is
absent. -/
def RedisManager.get_data (r : RedisManager) (key : String) : Option Val :=
  if r.is_connected then dictGet r.data key else none

/-- `RedisManager.delete_data`: `bool(client.delete(key))`, i.e. `True`
exactly when a key was present and removed. -/
def RedisManager.delete_data (r : RedisManager) (key : String) : Bool × RedisManager :=
  if r.is_connected then
    match dictGet r.data key with
    | some _ => (true, { r with data := dictDel r.data key })
    | none => (false, r)
  else (false, r)

/-! ## `conversation_state.py` — the conversation state machine -/

/-- `ConversationState.get_conversation_key`. -/
def get_conversation_key (customer_id : String) : String :=
  "conversation:" ++ customer_id

/-- The session dictionary shape built by `create_new_session`, with every
leaf value a parameter.  All states the manager itself writes have this
skeleton. -/
def session_state (customer_id session_id : String) (current_flow current_step collected : Val)
    (history : List Val) (created last_act : String)
    (msg_count flows_started flows_completed : Int) : Val :=
  .dict [("customer_id", .s customer_id), ("session_id", .s session_id),
    ("current_flow", current_flow), ("current_step", current_step),
    ("collected_data", collected), ("flow_history", .list history),
    ("metadata", .dict [("created_at", .s created), ("last_activity", .s last_act),
      ("message_count", .i msg_count), ("total_flows_started", .i flows_started),
      ("total_flows_completed", .i flows_completed)])]

/-- The fresh state dictionary literal of `create_new_session`. -/
def new_session_state (customer_id session_id now : String) : Val :=
  session_state customer_id session_id .null .null (.dict []) [] now now 0 0 0

/-- `ConversationState.create_new_session`: builds the fresh state, stores
it (ignoring the success flag), and returns the in-memory dictionary.
`session_id` and `now` stand for the fresh `uuid` and `datetime.now()`. -/
def create_new_session (r : RedisManager) (customer_id session_id now : String) :
    Val × RedisManager :=
  let st := new_session_state customer_id session_id now
  let res := r.set_data (get_conversation_key customer_id) st
  (st, res.2)

/-- The statement `state["metadata"]["last_activity"] = datetime.now().isoformat()`
shared by `get_state` and `update_state`.  `none` models the `KeyError` /
`TypeError` raised when the state has no map-valued `"metadata"` entry. -/
def touch_last_activity (st : Val) (now : String) : Option Val :=
  match st with
  | .dict fs =>
    match dictGet fs "metadata" with
    | some (.dict ms) =>
      some (.dict (dictSet fs "metadata" (.dict (dictSet ms "last_activity" (.s now)))))
    | _ => none
  | _ => none

/-- Python `key_path.split(".")` on the character list of the path. -/
def splitDots (l : List Char) : List (List Char) :=
  match l with
  | [] => [[]]
  | '.' :: rest => [] :: splitDots rest
  | c :: rest =>
    match splitDots rest with
    | [] => [[c]]
    | p :: ps => (c :: p) :: ps

/-- The dotted-path write loop of `update_state`: walk `parts`, creating an
empty dict for a missing intermediate key, and assign at the last part.
`none` models the `TypeError` Python raises when the walk reaches a value
that is not a dict (including the final item assignment). -/
def setPath (target : Val) (parts : List String) (v : Val) : Option Val :=
  match parts with
  | [] => none
  | [last] =>
    match target with
    | .dict fs => some (.dict (dictSet fs last v))
    | _ => none
  | part :: rest =>
    match target with
    | .dict fs =>
      match setPath ((dictGet fs part).getD (.dict [])) rest v with
      | some c2 => some (.dict (dictSet fs part c2))
      | none => none
    | _ => none

/-- One iteration of `update_state`'s loop: a key containing `"."` is a
dotted path, any other key is a top-level assignment. -/
def applyUpdate (st : Val) (key_path : String) (v : Val) : Option Val :=
  if key_path.data.contains '.' then
    setPath st ((splitDots key_path.data).map (fun l => String.mk l)) v
  else
    match st with
    | .dict fs => some (.dict (dictSet fs key_path v))
    | _ => none

/-- The whole `for key_path, value in updates.items():` loop, in insertion
order of the updates dict. -/
def applyUpdates (st : Val) (updates : List (String × Val)) : Option Val :=
  match updates with
  | [] => some st
  | (k, v) :: rest =>
    match applyUpdate st k v with
    | some st2 => applyUpdates st2 rest
    | none => none

/-- `ConversationState.get_state`: `None` on a miss; on a truthy hit the
`last_activity` stamp is rewritten and the state re-persisted (the
source's sliding-TTL refresh).  `.error ()` models an uncaught exception
from the `last_activity` assignment. -/
def get_state (r : RedisManager) (customer_id now : String) :
    Except Unit (Option Val × RedisManager) :=
  match r.get_data (get_conversation_key customer_id) with
  | none => .ok (none, r)
  | some st =>
    if truthy st then
      match touch_last_activity st now with
      | none => .error ()
      | some st2 =>
        let res := r.set_data (get_conversation_key customer_id) st2
        .ok (some st2, res.2)
    else .ok (some st, r)

/-- `ConversationState.update_state`: `False` without a session, otherwise
apply the updates, touch `last_activity`, persist, and return the store's
success flag.  `.error ()` models the uncaught `TypeError`/`KeyError` of
the dotted-path loop or of the `last_activity` assignment. -/
def update_state (r : RedisManager) (customer_id : String) (updates : List (String × Val))
    (now : String) : Except Unit (Bool × RedisManager) :=
  match r.get_data (get_conversation_key customer_id) with
  | none => .ok (false, r)
  | some st =>
    if truthy st then
      match applyUpdates st updates with
      | none => .error ()
      | some st2 =>
        match touch_last_activity st2 now with
        | none => .error ()
        | some st3 =>
          let res := r.set_data (get_conversation_key customer_id) st3
          .ok (res.1, res.2)
    else .ok (false, r)

/-- The updates dict built by `start_flow` (the counter value is the one
assigned after the branch on the current state). -/
def start_flow_updates (flow_name : String) (n : Int) : List (String × Val) :=
  [("current_flow", .s flow_name), ("current_step", .s "flow_started"),
    ("collected_data", .dict []), ("metadata.total_flows_started", .i n)]

/-- `state["metadata"][k]` for an integer counter; `none` models the
`KeyError`/`TypeError` when the counter is absent or not a number. -/
def get_meta_int (st : Val) (k : String) : Option Int :=
  match st with
  | .dict fs =>
    match dictGet fs "metadata" with
    | some (.dict ms) =>
      match dictGet ms k with
      | some (.i n) => some n
      | _ => none
    | _ => none
  | _ => none

/-- `ConversationState.start_flow`: read the state, create a session first
when none is active, then apply the flow-starting updates. -/
def start_flow (r : RedisManager) (customer_id flow_name session_id now : String) :
    Except Unit (Bool × RedisManager) :=
  match get_state r customer_id now with
  | .error e => .error e
  | .ok (stOpt, r1) =>
    match stOpt with
    | some st =>
      if truthy st then
        match get_meta_int st "total_flows_started" with
        | none => .error ()
        | some n => update_state r1 customer_id (start_flow_updates flow_name (n + 1)) now
      else
        let res := create_new_session r1 customer_id session_id now
        update_state res.2 customer_id (start_flow_updates flow_name 1) now
    | none =>
      let res := create_new_session r1 customer_id session_id now
      update_state res.2 customer_id (start_flow_updates flow_name 1) now

/-- Values with a `.copy()` method (dicts and lists); anything else makes
`current_state["collected_data"].copy()` raise. -/
def copyable : Val → Bool
  | .dict _ => true
  | .list _ => true
  | _ => false

/-- `current_state.get("flow_history", [])`, which must then support
`.append`: present lists are used, an absent key defaults to `[]`, any
other present value raises. -/
def history_list (fs : List (String × Val)) : Option (List Val) :=
  match dictGet fs "flow_history" with
  | some (.list xs) => some xs
  | none => some []
  | some _ => none

/-- `ConversationState.complete_flow`: `False` when there is no truthy
state or no truthy `current_flow`; otherwise append the flow record and
apply the clearing updates through `update_state`. -/
def complete_flow (r : RedisManager) (customer_id outcome now : String) :
    Except Unit (Bool × RedisManager) :=
  match get_state r customer_id now with
  | .error e => .error e
  | .ok (stOpt, r1) =>
    match stOpt with
    | none => .ok (false, r1)
    | some st =>
      if truthy st then
        match st with
        | .dict fs =>
          if truthy ((dictGet fs "current_flow").getD .null) then
            match dictGet fs "collected_data" with
            | some cd =>
              if copyable cd then
                match history_list fs with
                | none => .error ()
                | some hist =>
                  match get_meta_int st "total_flows_completed" with
                  | none => .error ()
                  | some n =>
                    let record : Val := .dict [("flow", (dictGet fs "current_flow").getD .null),
                      ("outcome", .s outcome), ("completed_at", .s now), ("data_collected", cd)]
                    update_state r1 customer_id
                      [("current_flow", .null), ("current_step", .null),
                        ("collected_data", .dict []),
                        ("flow_history", .list (hist ++ [record])),
                        ("metadata.total_flows_completed", .i (n + 1))] now
              else .error ()
            | none => .error ()
          else .ok (false, r1)
        | _ => .error ()
      else .ok (false, r1)

/-- `ConversationState.clear_session`. -/
def clear_session (r : RedisManager) (customer_id : String) : Bool × RedisManager :=
  r.delete_data (get_conversation_key customer_id)

/-- `ConversationState.has_active_session`: `get_data(key) is not None`. -/
def has_active_session (r : RedisManager) (customer_id : String) : Bool :=
  (r.get_data (get_conversation_key customer_id)).isSome

/-- `Except` success test, used to state that no exception escapes. -/
def isOkE {α : Type} (e : Except Unit α) : Bool :=
  match e with
  | .ok _ => true
  | .error _ => false

/-! ## `support_flow.py` — the confirmation step of the support flow -/

/-- Python `str.lower()` restricted to the code points whose lowercase is
a single ASCII character: ASCII uppercase maps down by 32, and U+212A
(KELVIN SIGN), the only other code point with an ASCII lowercase, maps
to `k`; every other character is left fixed.  Python's full per-character
mapping sends each remaining character to non-ASCII characters — except
U+0130, whose image `i` plus U+0307 still contains a combining mark —
and maps no character to or from whitespace, so after stripping, a
lowered message equals one of the flow's ASCII keywords under this
mapping exactly when it does under the full one: `_handle_confirmation`
chooses the same branch. -/
def py_lower_char (c : Char) : Char :=
  if 65 ≤ c.toNat ∧ c.toNat ≤ 90 then Char.ofNat (c.toNat + 32)
  else if c.toNat = 8490 then 'k'
  else c

/-- The whitespace set of Python `str.strip()` / `str.isspace()`:
tab through carriage return (0x09-0x0D), the file, group, record and
unit separators (0x1C-0x1F), space, next line (0x85), no-break space
(0xA0), Ogham space mark (0x1680), the en-quad through hair-space block
(0x2000-0x200A), the line and paragraph separators (0x2028, 0x2029),
narrow no-break space (0x202F), medium mathematical space (0x205F) and
ideographic space (0x3000). -/
def py_space (c : Char) : Bool :=
  (9 ≤ c.toNat ∧ c.toNat ≤ 13) ∨ (28 ≤ c.toNat ∧ c.toNat ≤ 31) ∨ c.toNat = 32
    ∨ c.toNat = 133 ∨ c.toNat = 160 ∨ c.toNat = 5760
    ∨ (8192 ≤ c.toNat ∧ c.toNat ≤ 8202) ∨ c.toNat = 8232 ∨ c.toNat = 8233
    ∨ c.toNat = 8239 ∨ c.toNat = 8287 ∨ c.toNat = 12288

/-- `message.lower().strip()`. -/
def lower_strip (m : String) : String :=
  String.mk ((((m.data.map py_lower_char).dropWhile py_space).reverse.dropWhile py_space).reverse)

/-- The "yes"-class inputs of `_handle_confirmation`. -/
def yes_inputs : List String := ["1", "yes", "resolved", "fixed", "good"]

/-- The "no"-class inputs of `_handle_confirmation`. -/
def no_inputs : List String := ["2", "no", "not resolved", "still need help"]

/-- Response text of the resolved branch. -/
def confirm_yes_response : String :=
  "Great! I\x27m glad I could help resolve your issue. 😊\n\nIs there anything else I can help you with today?"

/-- Response text of the escalated branch. -/
def confirm_no_response : String :=
  "I understand you still need help. Let me connect you with a human support agent who can assist you further.\n\nYour case has been escalated and someone will contact you within 24 hours."

/-- The re-prompt returned for an unrecognized confirmation answer. -/
def confirm_retry_response : String :=
  "Please let me know if the solution helped:\n\n1. Yes, issue resolved!\n2. No, I still need help"

/-- The completion tail shared by the two recognized-answer branches of
`_handle_confirmation`: call `complete_flow` (ignoring its boolean), then
re-read the state, `final_state = self.conv_mgr.get_state(customer_id) or
\x7b\x7d`. -/
def finish_confirmation (r : RedisManager) (customer_id outcome response now : String) :
    Except Unit (String × Val × RedisManager) :=
  match complete_flow r customer_id outcome now with
  | .error e => .error e
  | .ok (_done, r2) =>
    match get_state r2 customer_id now with
    | .error e => .error e
    | .ok (stOpt, r3) =>
      let final := match stOpt with
        | some st => if truthy st then st else .dict []
        | none => .dict []
      .ok (response, final, r3)

/-- `SupportFlow._handle_confirmation`: classify the lowered and stripped
message; on a recognized answer complete the flow with the matching
outcome and re-read the state; otherwise return the re-prompt and the
caller's state untouched, with no store interaction. -/
def handle_confirmation (r : RedisManager) (customer_id message : String) (state : Val)
    (now : String) : Except Unit (String × Val × RedisManager) :=
  let m := lower_strip message
  if m ∈ yes_inputs then
    finish_confirmation r customer_id "resolved" confirm_yes_response now
  else if m ∈ no_inputs then
    finish_confirmation r customer_id "escalated" confirm_no_response now
  else
    .ok (confirm_retry_response, state, r)

/-! ## `test_comparison.py` — the normalizing customer manager -/

/-- A row of `NewCustomerManager.customers`.  Optional string fields keep
Python's `None`; an aggregate amount is a rational standing for the
`float`. -/
structure Customer where
  id : Nat
  email : Option String
  phone : Option String
  whatsapp_phone : Option String
  total_orders : Rat
  order_count : Nat

/-- A row of `NewCustomerManager.orders`. -/
structure Order where
  customer_id : Nat
  amount : Rat

/-- The in-memory state of `NewCustomerManager`. -/
structure NewCustomerManager where
  customers : List Customer
  orders : List Order
  next_id : Nat

/-- `NewCustomerManager()` — empty lists, ids starting at 1. -/
def NewCustomerManager.empty : NewCustomerManager := ⟨[], [], 1⟩

/-- Python truthiness of an optional string (`if email:` and friends):
`None` and `""` are falsy. -/
def py_truthy_str (o : Option String) : Bool :=
  match o with
  | none => false
  | some t => t != ""

/-- `phone.replace('whatsapp:', '')` on the character list: remove every
occurrence of the nine characters `whatsapp:`, scanning left to right
without overlap, exactly like Python `str.replace`. -/
def removeWhatsappTag : List Char → List Char
  | [] => []
  | 'w' :: 'h' :: 'a' :: 't' :: 's' :: 'a' :: 'p' :: 'p' :: ':' :: rest => removeWhatsappTag rest
  | c :: rest => c :: removeWhatsappTag rest

/-- `NewCustomerManager.normalize_phone_number`: `None` on falsy input;
otherwise drop the `whatsapp:` tag and every `+`, space and hyphen,
prepend the US country code `1` when exactly 10 characters remain, and
prepend `+`. -/
def normalize_phone_number (phone : Option String) : Option String :=
  match phone with
  | none => none
  | some p =>
    if p.data = [] then none
    else
      let l1 := removeWhatsappTag p.data
      let l2 := l1.filter (fun c => ¬(c = '+' ∨ c = ' ' ∨ c = '-'))
      let l3 := if l2.length = 10 then '1' :: l2 else l2
      some (String.mk ('+' :: l3))

/-- The email-branch backfill of `new_find_or_create_customer`: fill the
WhatsApp field and then the phone field when currently falsy (never
touching a populated one). -/
def backfill_email_match (c : Customer) (nw np : Option String) : Customer :=
  let c1 := if py_truthy_str nw ∧ ¬py_truthy_str c.whatsapp_phone = true then
    { c with whatsapp_phone := nw } else c
  if py_truthy_str np ∧ ¬py_truthy_str c1.phone = true then { c1 with phone := np } else c1

/-- The phone-branch backfill: fill email, then WhatsApp, then phone, each
only when currently falsy. -/
def backfill_phone_match (c : Customer) (em nw np : Option String) : Customer :=
  let c1 := if py_truthy_str em ∧ ¬py_truthy_str c.email = true then { c with email := em } else c
  let c2 := if py_truthy_str nw ∧ ¬py_truthy_str c1.whatsapp_phone = true then
    { c1 with whatsapp_phone := nw } else c1
  if py_truthy_str np ∧ ¬py_truthy_str c2.phone = true then { c2 with phone := np } else c2

/-- The `for c in self.customers:` scan of the email branch: first exact
email match wins; the matched row is backfilled in place. -/
def email_scan (e : String) (nw np : Option String) :
    List Customer → Option (Customer × List Customer)
  | [] => none
  | c :: cs =>
    if c.email = some e then
      let c2 := backfill_email_match c nw np
      some (c2, c2 :: cs)
    else
      match email_scan e nw np cs with
      | some (r, cs2) => some (r, c :: cs2)
      | none => none

/-- The inner `for c in self.customers:` scan for one normalized search
phone: a row matches when its phone or WhatsApp field equals it. -/
def phone_scan_one (sp : String) (em nw np : Option String) :
    List Customer → Option (Customer × List Customer)
  | [] => none
  | c :: cs =>
    if c.phone = some sp ∨ c.whatsapp_phone = some sp then
      let c2 := backfill_phone_match c em nw np
      some (c2, c2 :: cs)
    else
      match phone_scan_one sp em nw np cs with
      | some (r, cs2) => some (r, c :: cs2)
      | none => none

/-- The outer `for search_phone in search_phones:` loop. -/
def phone_scan (sps : List String) (em nw np : Option String) (cs : List Customer) :
    Option (Customer × List Customer) :=
  match sps with
  | [] => none
  | sp :: rest =>
    match phone_scan_one sp em nw np cs with
    | some r => some r
    | none => phone_scan rest em nw np cs

/-- `NewCustomerManager.new_find_or_create_customer`: normalize both phone
inputs, look up by email first, then by each truthy normalized phone
against both phone fields, backfilling empty fields of a hit; create a
fresh row (with normalized phones) when nothing matches. -/
def new_find_or_create_customer (m : NewCustomerManager) (email phone whatsapp_phone : Option String) :
    Customer × NewCustomerManager :=
  let np := normalize_phone_number phone
  let nw := normalize_phone_number whatsapp_phone
  let byEmail := match email with
    | some e => if e != "" then email_scan e nw np m.customers else none
    | none => none
  match byEmail with
  | some (c, cs) => (c, { m with customers := cs })
  | none =>
    let sps := ((np :: nw :: []).filterMap (fun o => o)).filter (fun t => t != "")
    match phone_scan sps email nw np m.customers with
    | some (c, cs) => (c, { m with customers := cs })
    | none =>
      let c : Customer :=
        { id := m.next_id, email := email, phone := np,
          whatsapp_phone := nw, total_orders := 0, order_count := 0 }
      (c, { m with customers := m.customers ++ [c], next_id := m.next_id + 1 })

/-- `NewCustomerManager.add_order`. -/
def add_order (m : NewCustomerManager) (customer_id : Nat) (order_amount : Rat) :
    NewCustomerManager :=
  { m with orders := m.orders ++ [⟨customer_id, order_amount⟩] }

/-- The summation loop of `recalculate_customer_totals`. -/
def order_totals (orders : List Order) (customer_id : Nat) : Rat × Nat :=
  orders.foldl
    (fun acc o => if o.customer_id = customer_id then (acc.1 + o.amount, acc.2 + 1) else acc)
    (0, 0)

/-- The `for customer in self.customers:` write-back loop (first matching
row only, then `break`). -/
def write_totals (customer_id : Nat) (t : Rat) (n : Nat) : List Customer → List Customer
  | [] => []
  | c :: cs =>
    if c.id = customer_id then { c with total_orders := t, order_count := n } :: cs
    else c :: write_totals customer_id t n cs

/-- `NewCustomerManager.recalculate_customer_totals`: recompute the pair
from the order log and write it into the first matching customer row. -/
def recalculate_customer_totals (m : NewCustomerManager) (customer_id : Nat) :
    NewCustomerManager :=
  let tn := order_totals m.orders customer_id
  { m with customers := write_totals customer_id tn.1 tn.2 m.customers }

/-- A call to the resolver that supplies one phone-shaped input either as
the plain phone (`as_whatsapp = false`) or as the WhatsApp handle
(`as_whatsapp = true`), the two entry points claim C1 ranges over. -/
def phone_only_call (m : NewCustomerManager) (p : String) (as_whatsapp : Bool) :
    Customer × NewCustomerManager :=
  if as_whatsapp then new_find_or_create_customer m none none (some p)
  else new_find_or_create_customer m none (some p) none

/-! ## Specification-side definitions for the normalization claim (C6) -/

/-- Follows the words of claim C6 as written: remove the
messaging-provider tag `whatsapp:` where it stands as a prefix of the
input, remove every `+`, space and hyphen, prepend the country-code digit
`1` exactly when 10 characters remain, and prepend `+`; null on null or
empty input. -/
def claim_normalize_phone (phone : Option String) : Option String :=
  match phone with
  | none => none
  | some p =>
    if p.data = [] then none
    else
      let l1 := if p.data.take 9 = ['w', 'h', 'a', 't', 's', 'a', 'p', 'p', ':']
        then p.data.drop 9 else p.data
      let l2 := l1.filter (fun c => ¬(c = '+' ∨ c = ' ' ∨ c = '-'))
      let l3 := if l2.length = 10 then '1' :: l2 else l2
      some (String.mk ('+' :: l3))

/-- Left-to-right, non-overlapping removal of every occurrence of the
nine characters `whatsapp:`, written for the amended claim C6
independently of the source embedding. -/
def claim_remove_tag : List Char → List Char
  | 'w' :: 'h' :: 'a' :: 't' :: 's' :: 'a' :: 'p' :: 'p' :: ':' :: rest => claim_remove_tag rest
  | c :: rest => c :: claim_remove_tag rest
  | [] => []

/-- Follows the words of the amended claim C6: as `claim_normalize_phone`,
except that every occurrence of the substring `whatsapp:` is removed, not
only a leading one. -/
def claim_normalize_phone_amended (phone : Option String) : Option String :=
  match phone with
  | none => none
  | some p =>
    if p.data = [] then none
    else
      let l1 := claim_remove_tag p.data
      let l2 := l1.filter (fun c => ¬(c = '+' ∨ c = ' ' ∨ c = '-'))
      let l3 := if l2.length = 10 then '1' :: l2 else l2
      some (String.mk ('+' :: l3))


/-! ## Helper lemmas -/

theorem dictGet_dictSet_self (d : List (String × Val)) (k : String) (v : Val) :
    dictGet (dictSet d k v) k = some v := by
  induction d with
  | nil => simp [dictSet, dictGet]
  | cons hd tl ih =>
    obtain ⟨k2, w⟩ := hd
    by_cases h : k2 = k
    · simp [dictSet, dictGet, h]
    · simp [dictSet, dictGet, h, ih]

theorem dictSet_dictSet_self (d : List (String × Val)) (k : String) (v w : Val) :
    dictSet (dictSet d k v) k w = dictSet d k w := by
  induction d with
  | nil => simp [dictSet]
  | cons hd tl ih =>
    obtain ⟨k2, u⟩ := hd
    by_cases h : k2 = k
    · simp [dictSet, h]
    · simp [dictSet, h, ih]

/-- A successful read certifies the connection and the raw entry. -/
theorem get_data_eq_some {r : RedisManager} {key : String} {v : Val}
    (h : r.get_data key = some v) :
    r.is_connected = true ∧ dictGet r.data key = some v := by
  by_cases hc : r.is_connected = true
  · exact ⟨hc, by simpa [RedisManager.get_data, hc] using h⟩
  · simp [RedisManager.get_data, hc] at h

/-- `get_state` on a miss returns `None` and leaves the store alone. -/
theorem get_state_miss (r : RedisManager) (customer_id now : String)
    (h : r.get_data (get_conversation_key customer_id) = none) :
    get_state r customer_id now = .ok (none, r) := by
  unfold get_state
  simp [h]

/-- `get_state` on a truthy hit over a connected store: the touched state
is returned and re-persisted. -/
theorem get_state_entry (data : List (String × Val)) (customer_id now : String) (st st2 : Val)
    (hget : dictGet data (get_conversation_key customer_id) = some st)
    (htr : truthy st = true)
    (htouch : touch_last_activity st now = some st2) :
    get_state ⟨true, data⟩ customer_id now
      = .ok (some st2, ⟨true, dictSet data (get_conversation_key customer_id) st2⟩) := by
  unfold get_state RedisManager.get_data RedisManager.set_data
  simp [hget, htr, htouch]

/-- `update_state` over a connected store with a truthy entry on which the
update loop and the activity touch succeed. -/
theorem update_state_entry (data : List (String × Val)) (customer_id : String)
    (updates : List (String × Val)) (now : String) (st st2 st3 : Val)
    (hget : dictGet data (get_conversation_key customer_id) = some st)
    (htr : truthy st = true)
    (happ : applyUpdates st updates = some st2)
    (htouch : touch_last_activity st2 now = some st3) :
    update_state ⟨true, data⟩ customer_id updates now
      = .ok (true, ⟨true, dictSet data (get_conversation_key customer_id) st3⟩) := by
  unfold update_state RedisManager.get_data RedisManager.set_data
  simp [hget, htr, happ, htouch]

/-- The history record literal appended by `complete_flow`. -/
def flow_record (cf : Val) (outcome now : String) (collected : List (String × Val)) : Val :=
  .dict [("flow", cf), ("outcome", .s outcome), ("completed_at", .s now),
    ("data_collected", .dict collected)]

theorem complete_flow_none (r : RedisManager) (customer_id outcome now : String)
    (h : r.get_data (get_conversation_key customer_id) = none) :
    complete_flow r customer_id outcome now = .ok (false, r) := by
  unfold complete_flow
  rw [get_state_miss r customer_id now h]

/-- `complete_flow` with a stored session whose `current_flow` is falsy:
it answers `False`, but the sliding refresh of `get_state` has already
rewritten `last_activity` and re-persisted the session. -/
theorem complete_flow_idle (data : List (String × Val))
    (customer_id stored_id stored_session outcome now : String) (cf cstep : Val)
    (collected : List (String × Val)) (history : List Val) (created last_act : String)
    (mc f1 f2 : Int)
    (hget : dictGet data (get_conversation_key customer_id)
      = some (session_state stored_id stored_session cf cstep (.dict collected)
          history created last_act mc f1 f2))
    (hcf : truthy cf = false) :
    complete_flow ⟨true, data⟩ customer_id outcome now
      = .ok (false, ⟨true, dictSet data (get_conversation_key customer_id)
          (session_state stored_id stored_session cf cstep (.dict collected)
            history created now mc f1 f2)⟩) := by
  have h1 := get_state_entry data customer_id now
    (session_state stored_id stored_session cf cstep (.dict collected) history created last_act mc f1 f2)
    (session_state stored_id stored_session cf cstep (.dict collected) history created now mc f1 f2)
    hget rfl rfl
  unfold complete_flow
  rw [h1]
  show (if truthy cf = true then _ else _) = _
  rw [hcf]
  simp only [Bool.false_eq_true, if_false]

/-- `complete_flow` with an active flow: one record is appended, the flow
slots are cleared, the completion counter is incremented, and the result
is re-persisted under the same key. -/
theorem complete_flow_active (data : List (String × Val))
    (customer_id stored_id stored_session outcome now : String) (cf cstep : Val)
    (collected : List (String × Val)) (history : List Val) (created last_act : String)
    (mc f1 f2 : Int)
    (hget : dictGet data (get_conversation_key customer_id)
      = some (session_state stored_id stored_session cf cstep (.dict collected)
          history created last_act mc f1 f2))
    (hcf : truthy cf = true) :
    complete_flow ⟨true, data⟩ customer_id outcome now
      = .ok (true, ⟨true, dictSet data (get_conversation_key customer_id)
          (session_state stored_id stored_session .null .null (.dict [])
            (history ++ [flow_record cf outcome now collected]) created now mc f1 (f2 + 1))⟩) := by
  have h1 := get_state_entry data customer_id now
    (session_state stored_id stored_session cf cstep (.dict collected) history created last_act mc f1 f2)
    (session_state stored_id stored_session cf cstep (.dict collected) history created now mc f1 f2)
    hget rfl rfl
  have h2 := update_state_entry
    (dictSet data (get_conversation_key customer_id)
      (session_state stored_id stored_session cf cstep (.dict collected) history created now mc f1 f2))
    customer_id
    [("current_flow", Val.null), ("current_step", Val.null),
      ("collected_data", Val.dict []),
      ("flow_history", Val.list (history ++ [flow_record cf outcome now collected])),
      ("metadata.total_flows_completed", Val.i (f2 + 1))]
    now
    (session_state stored_id stored_session cf cstep (.dict collected) history created now mc f1 f2)
    (session_state stored_id stored_session .null .null (.dict [])
      (history ++ [flow_record cf outcome now collected]) created now mc f1 (f2 + 1))
    (session_state stored_id stored_session .null .null (.dict [])
      (history ++ [flow_record cf outcome now collected]) created now mc f1 (f2 + 1))
    (dictGet_dictSet_self data (get_conversation_key customer_id) _)
    rfl rfl rfl
  unfold complete_flow
  rw [h1]
  show (if truthy cf = true then _ else _) = _
  rw [hcf]
  show update_state
      ⟨true, dictSet data (get_conversation_key customer_id)
        (session_state stored_id stored_session cf cstep (Val.dict collected)
          history created now mc f1 f2)⟩
      customer_id
      [("current_flow", Val.null), ("current_step", Val.null), ("collected_data", Val.dict []),
        ("flow_history", Val.list (history ++ [flow_record cf outcome now collected])),
        ("metadata.total_flows_completed", Val.i (f2 + 1))]
      now = _
  rw [h2, dictSet_dictSet_self]

/-- `update_state` without a stored entry answers `False` and leaves the
store untouched (no write happens before the early return). -/
theorem update_state_no_entry (r : RedisManager) (customer_id : String)
    (updates : List (String × Val)) (now : String)
    (h : r.get_data (get_conversation_key customer_id) = none) :
    update_state r customer_id updates now = .ok (false, r) := by
  unfold update_state
  rw [h]

/-- `start_flow` on a connected store with no entry: a fresh session is
created and the flow-starting updates are applied to it. -/
theorem start_flow_fresh_store (data : List (String × Val))
    (customer_id flow_name session_id now : String)
    (h : dictGet data (get_conversation_key customer_id) = none) :
    start_flow ⟨true, data⟩ customer_id flow_name session_id now
      = .ok (true, ⟨true, dictSet data (get_conversation_key customer_id)
          (session_state customer_id session_id (.s flow_name) (.s "flow_started")
            (.dict []) [] now now 0 1 0)⟩) := by
  have hmiss : RedisManager.get_data ⟨true, data⟩ (get_conversation_key customer_id) = none := by
    simpa [RedisManager.get_data] using h
  have h2 := update_state_entry
    (dictSet data (get_conversation_key customer_id) (new_session_state customer_id session_id now))
    customer_id (start_flow_updates flow_name 1) now
    (new_session_state customer_id session_id now)
    (session_state customer_id session_id (.s flow_name) (.s "flow_started") (.dict []) [] now now 0 1 0)
    (session_state customer_id session_id (.s flow_name) (.s "flow_started") (.dict []) [] now now 0 1 0)
    (dictGet_dictSet_self _ _ _) rfl rfl rfl
  unfold start_flow
  rw [get_state_miss _ _ _ hmiss]
  show update_state
      ⟨true, dictSet data (get_conversation_key customer_id)
        (new_session_state customer_id session_id now)⟩
      customer_id (start_flow_updates flow_name 1) now = _
  rw [h2, dictSet_dictSet_self]

/-- `start_flow` on a connected store with an existing session: the
started-counter is incremented, the flow slots are set, collected data is
reset, and the history is kept. -/
theorem start_flow_existing (data : List (String × Val))
    (customer_id stored_id stored_session flow_name new_session now : String) (cf cstep : Val)
    (collected : List (String × Val)) (history : List Val) (created last_act : String)
    (mc f1 f2 : Int)
    (hget : dictGet data (get_conversation_key customer_id)
      = some (session_state stored_id stored_session cf cstep (.dict collected)
          history created last_act mc f1 f2)) :
    start_flow ⟨true, data⟩ customer_id flow_name new_session now
      = .ok (true, ⟨true, dictSet data (get_conversation_key customer_id)
          (session_state stored_id stored_session (.s flow_name) (.s "flow_started")
            (.dict []) history created now mc (f1 + 1) f2)⟩) := by
  have h1 := get_state_entry data customer_id now
    (session_state stored_id stored_session cf cstep (.dict collected) history created last_act mc f1 f2)
    (session_state stored_id stored_session cf cstep (.dict collected) history created now mc f1 f2)
    hget rfl rfl
  have h2 := update_state_entry
    (dictSet data (get_conversation_key customer_id)
      (session_state stored_id stored_session cf cstep (.dict collected) history created now mc f1 f2))
    customer_id (start_flow_updates flow_name (f1 + 1)) now
    (session_state stored_id stored_session cf cstep (.dict collected) history created now mc f1 f2)
    (session_state stored_id stored_session (.s flow_name) (.s "flow_started")
      (.dict []) history created now mc (f1 + 1) f2)
    (session_state stored_id stored_session (.s flow_name) (.s "flow_started")
      (.dict []) history created now mc (f1 + 1) f2)
    (dictGet_dictSet_self _ _ _) rfl rfl rfl
  unfold start_flow
  rw [h1]
  show update_state
      ⟨true, dictSet data (get_conversation_key customer_id)
        (session_state stored_id stored_session cf cstep (.dict collected) history created now mc f1 f2)⟩
      customer_id (start_flow_updates flow_name (f1 + 1)) now = _
  rw [h2, dictSet_dictSet_self]

theorem string_mk_cons_ne_empty (c : Char) (l : List Char) : String.mk (c :: l) ≠ "" := by
  intro h
  have h2 := congrArg String.data h
  simp at h2

/-- Whatever the normalizer returns is a nonempty (`+`-prefixed) string. -/
theorem normalize_ne_empty {x : Option String} {t : String}
    (h : normalize_phone_number x = some t) : t ≠ "" := by
  cases x with
  | none => simp [normalize_phone_number] at h
  | some p =>
    unfold normalize_phone_number at h
    by_cases hd : p.data = []
    · simp [hd] at h
    · simp only [hd, if_false] at h
      have h2 := Option.some.inj h
      exact h2 ▸ string_mk_cons_ne_empty _ _

/-- On a nonempty input the normalizer yields a nonempty result. -/
theorem normalize_some_of_ne (p : String) (hp : p ≠ "") :
    ∃ np, normalize_phone_number (some p) = some np ∧ np ≠ "" := by
  have hd : p.data ≠ [] := by
    intro h
    apply hp
    have h3 : p = String.mk p.data := rfl
    rw [h3, h]
  unfold normalize_phone_number
  simp only [hd, if_false]
  exact ⟨_, rfl, string_mk_cons_ne_empty _ _⟩

set_option maxHeartbeats 1000000 in
theorem remove_tag_eq (l : List Char) : removeWhatsappTag l = claim_remove_tag l := by
  induction l using removeWhatsappTag.induct with
  | case1 => rfl
  | case2 rest ih => simp [removeWhatsappTag, claim_remove_tag, ih]
  | case3 c rest h ih => simp [removeWhatsappTag, claim_remove_tag, ih]

/-- The shape of every session value the conversation manager itself
writes: the `create_new_session` skeleton with arbitrary leaves. -/
def IsSession (st : Val) : Prop :=
  ∃ (customer_id session_id : String) (current_flow current_step : Val)
    (collected : List (String × Val)) (history : List Val) (created last_act : String)
    (msg_count flows_started flows_completed : Int),
    st = session_state customer_id session_id current_flow current_step (.dict collected)
      history created last_act msg_count flows_started flows_completed

theorem email_scan_app (e : String) (nw np : Option String) (pre post : List Customer)
    (c : Customer) (hpre : ∀ c2 ∈ pre, c2.email ≠ some e) (hce : c.email = some e) :
    email_scan e nw np (pre ++ c :: post)
      = some (backfill_email_match c nw np, pre ++ backfill_email_match c nw np :: post) := by
  induction pre with
  | nil => simp [email_scan, hce]
  | cons a pre ih =>
    have ha : ¬(a.email = some e) := hpre a (by simp)
    have ih2 := ih (fun c2 hc2 => hpre c2 (by simp [hc2]))
    simp only [List.cons_append, email_scan, ha, if_false, List.append_eq, ih2]

theorem write_totals_idem (customer_id : Nat) (t : Rat) (n : Nat) (cs : List Customer) :
    write_totals customer_id t n (write_totals customer_id t n cs)
      = write_totals customer_id t n cs := by
  induction cs with
  | nil => simp [write_totals]
  | cons c cs ih =>
    by_cases h : c.id = customer_id
    · simp [write_totals, h]
    · simp [write_totals, h, ih]

/-! ## The claims -/

/-- C3: for a customer with no session entry in the store, `update_state`
returns `False` and the store is exactly what it was before the call. -/
theorem c3_update_state_no_session (r : RedisManager) (customer_id : String)
    (updates : List (String × Val)) (now : String)
    (h : dictGet r.data (get_conversation_key customer_id) = none) :
    update_state r customer_id updates now = .ok (false, r) := by
  apply update_state_no_entry
  simp [RedisManager.get_data, h, ite_self]

/-- Witness for C3 at a concrete store and the update map of the claim. -/
theorem c3_update_state_no_session_witness :
    update_state ⟨true, []⟩ "cust_1" [("metadata.message_count", Val.i 5)] "t1"
      = .ok (false, ⟨true, []⟩) :=
  c3_update_state_no_session ⟨true, []⟩ "cust_1" [("metadata.message_count", Val.i 5)] "t1" rfl

/-- C7: `start_flow` for a customer without a session entry (over a
connected store) first creates a fresh session and leaves a stored state
with the flow set, step `"flow_started"`, empty collected data and
`metadata.total_flows_started = 1`, returning `True`. -/
theorem c7_start_flow_fresh (r : RedisManager) (customer_id flow_name session_id now : String)
    (hc : r.is_connected = true)
    (h : dictGet r.data (get_conversation_key customer_id) = none) :
    start_flow r customer_id flow_name session_id now
      = .ok (true, ⟨true, dictSet r.data (get_conversation_key customer_id)
          (session_state customer_id session_id (.s flow_name) (.s "flow_started")
            (.dict []) [] now now 0 1 0)⟩) := by
  obtain ⟨conn, data⟩ := r
  have hconn : conn = true := hc
  subst hconn
  exact start_flow_fresh_store data customer_id flow_name session_id now h

/-- Witness for C7: starting `"support"` on an empty connected store. -/
theorem c7_start_flow_fresh_witness :
    start_flow ⟨true, []⟩ "cust_1" "support" "sess_1" "t0"
      = .ok (true, ⟨true, [(get_conversation_key "cust_1",
          session_state "cust_1" "sess_1" (.s "support") (.s "flow_started")
            (.dict []) [] "t0" "t0" 0 1 0)]⟩) :=
  c7_start_flow_fresh ⟨true, []⟩ "cust_1" "support" "sess_1" "t0" rfl rfl

/-- C9: with no orders added in between, a second
`recalculate_customer_totals` is a no-op — the whole manager state,
`total_orders` and `order_count` fields included, is unchanged. -/
theorem c9_recalculate_totals_idem (m : NewCustomerManager) (customer_id : Nat) :
    recalculate_customer_totals (recalculate_customer_totals m customer_id) customer_id
      = recalculate_customer_totals m customer_id := by
  obtain ⟨cs, os, ni⟩ := m
  simp [recalculate_customer_totals, write_totals_idem]

/-- C10: `create_new_session` returns the freshly built state dictionary
whatever the store does — the return value is the same function of the
inputs for every store, so a caller cannot tell a persisted from an
unpersisted session — and over a disconnected store nothing is written
and a later `get_state` answers `None`. -/
theorem c10_create_session_unpersisted (r : RedisManager)
    (customer_id session_id now later : String) (h : r.is_connected = false) :
    (∀ r2 : RedisManager, (create_new_session r2 customer_id session_id now).1
        = new_session_state customer_id session_id now)
    ∧ (create_new_session r customer_id session_id now).2 = r
    ∧ get_state (create_new_session r customer_id session_id now).2 customer_id later
        = .ok (none, (create_new_session r customer_id session_id now).2) := by
  have h2 : (create_new_session r customer_id session_id now).2 = r := by
    simp [create_new_session, RedisManager.set_data, h]
  refine ⟨fun r2 => rfl, h2, ?_⟩
  rw [h2]
  exact get_state_miss r customer_id later (by simp [RedisManager.get_data, h])

/-- Witness for C10 on a concrete disconnected store. -/
theorem c10_create_session_unpersisted_witness :
    (create_new_session ⟨false, []⟩ "cust_1" "sess_1" "t0").1
        = new_session_state "cust_1" "sess_1" "t0"
    ∧ get_state (create_new_session ⟨false, []⟩ "cust_1" "sess_1" "t0").2 "cust_1" "t1"
        = .ok (none, (create_new_session ⟨false, []⟩ "cust_1" "sess_1" "t0").2) := by
  have h := c10_create_session_unpersisted ⟨false, []⟩ "cust_1" "sess_1" "t0" "t1" rfl
  exact ⟨h.1 _, h.2.2⟩

/-- The `metadata.last_activity` value stored under a customer's key,
used to observe that an operation wrote to the store. -/
def stored_last_activity (r : RedisManager) (customer_id : String) : Option Val :=
  match dictGet r.data (get_conversation_key customer_id) with
  | some (.dict fs) =>
    match dictGet fs "metadata" with
    | some (.dict ms) => dictGet ms "last_activity"
    | _ => none
  | _ => none

/-- C4 counterexample: with a stored idle session (`current_flow` null),
`complete_flow` does return `False` — but it does not leave the store
unchanged: the internal `get_state` rewrites the session's
`last_activity` from `"t0"` to `"t1"` and re-persists it. -/
theorem c4_counterexample :
    complete_flow
        ⟨true, [(get_conversation_key "cust_1", new_session_state "cust_1" "sess_1" "t0")]⟩
        "cust_1" "resolved" "t1"
      = .ok (false, ⟨true, [(get_conversation_key "cust_1",
          session_state "cust_1" "sess_1" .null .null (.dict []) [] "t0" "t1" 0 0 0)]⟩)
    ∧ (⟨true, [(get_conversation_key "cust_1",
          session_state "cust_1" "sess_1" .null .null (.dict []) [] "t0" "t1" 0 0 0)]⟩ : RedisManager)
      ≠ ⟨true, [(get_conversation_key "cust_1", new_session_state "cust_1" "sess_1" "t0")]⟩ := by
  constructor
  · rfl
  · intro hEq
    have h1 := congrArg (fun r => stored_last_activity r "cust_1") hEq
    have h2 : some (Val.s "t1") = some (Val.s "t0") := h1
    have h3 := Val.s.inj (Option.some.inj h2)
    exact absurd h3 (by decide)

/-- C4 (amended): `complete_flow` returns `False` when the customer has
no session entry or the stored session's `current_flow` is null; with no
entry nothing is written, but with an idle session the internal
`get_state` refreshes `metadata.last_activity` and re-persists the entry
(so the store does change); when a flow is active it appends exactly one
record `(flow, outcome, completed_at, data_collected = snapshot of
collected_data)` to `flow_history`, nulls `current_flow` and
`current_step`, empties `collected_data`, increments
`metadata.total_flows_completed` by exactly one, and returns `True`. -/
theorem c4_complete_flow_amended (r : RedisManager)
    (customer_id stored_id stored_session outcome now : String) (cf cstep : Val)
    (collected : List (String × Val)) (history : List Val)
    (created last_act : String) (mc f1 f2 : Int) :
    (r.get_data (get_conversation_key customer_id) = none →
      complete_flow r customer_id outcome now = .ok (false, r))
    ∧ (r.is_connected = true →
      dictGet r.data (get_conversation_key customer_id)
        = some (session_state stored_id stored_session cf cstep (.dict collected)
            history created last_act mc f1 f2) →
      truthy cf = false →
      complete_flow r customer_id outcome now
        = .ok (false, ⟨true, dictSet r.data (get_conversation_key customer_id)
            (session_state stored_id stored_session cf cstep (.dict collected)
              history created now mc f1 f2)⟩))
    ∧ (r.is_connected = true →
      dictGet r.data (get_conversation_key customer_id)
        = some (session_state stored_id stored_session cf cstep (.dict collected)
            history created last_act mc f1 f2) →
      truthy cf = true →
      complete_flow r customer_id outcome now
        = .ok (true, ⟨true, dictSet r.data (get_conversation_key customer_id)
            (session_state stored_id stored_session .null .null (.dict [])
              (history ++ [flow_record cf outcome now collected])
              created now mc f1 (f2 + 1))⟩)) := by
  refine ⟨fun h => complete_flow_none r customer_id outcome now h, ?_, ?_⟩
  · intro hc hget hcf
    obtain ⟨conn, data⟩ := r
    have hconn : conn = true := hc
    subst hconn
    exact complete_flow_idle data customer_id stored_id stored_session outcome now cf cstep
      collected history created last_act mc f1 f2 hget hcf
  · intro hc hget hcf
    obtain ⟨conn, data⟩ := r
    have hconn : conn = true := hc
    subst hconn
    exact complete_flow_active data customer_id stored_id stored_session outcome now cf cstep
      collected history created last_act mc f1 f2 hget hcf

/-- Witness for C4 (amended), active-flow case, at a concrete session. -/
theorem c4_complete_flow_amended_witness :
    complete_flow
        ⟨true, [(get_conversation_key "cust_1",
          session_state "cust_1" "sess_1" (.s "support") (.s "5_confirmation")
            (.dict [("issue_type", .s "order_issue")]) [] "t0" "t0" 3 1 0)]⟩
        "cust_1" "resolved" "t1"
      = .ok (true, ⟨true, [(get_conversation_key "cust_1",
          session_state "cust_1" "sess_1" .null .null (.dict [])
            [flow_record (.s "support") "resolved" "t1" [("issue_type", .s "order_issue")]]
            "t0" "t1" 3 1 1)]⟩) :=
  (c4_complete_flow_amended
    ⟨true, [(get_conversation_key "cust_1",
      session_state "cust_1" "sess_1" (.s "support") (.s "5_confirmation")
        (.dict [("issue_type", .s "order_issue")]) [] "t0" "t0" 3 1 0)]⟩
    "cust_1" "cust_1" "sess_1" "resolved" "t1" (.s "support") (.s "5_confirmation")
    [("issue_type", .s "order_issue")] [] "t0" "t0" 3 1 0).2.2 rfl rfl rfl

/-- C2 counterexample: the public operation `update_state`, given the
update map of the claim (`"current_flow.x" : 1`) while the stored
session's `current_flow` is null, raises an uncaught `TypeError` — the
exception escapes to the caller instead of a boolean result. -/
theorem c2_counterexample :
    update_state
        ⟨true, [(get_conversation_key "cust_1", new_session_state "cust_1" "sess_1" "t0")]⟩
        "cust_1" [("current_flow.x", Val.i 1)] "t1"
      = .error () := by
  rfl

/-- C2 (amended): over any store whose entry for the customer, if
present, is a well-formed session, `get_state`, `start_flow` and
`complete_flow` return their declared optional/bool results and no
exception escapes; `update_state` does so exactly when applying the
caller's update map (and the subsequent `last_activity` touch) succeeds
on the stored session — its dotted-path loop raises a `TypeError` when a
path traverses a value that is not a map, as in `("current_flow.x", 1)`
with `current_flow` null.  `create_new_session`, `clear_session` and
`has_active_session` contain no failing statement and are total by
construction (they are plain functions in this embedding). -/
theorem c2_public_ops_amended (r : RedisManager)
    (customer_id flow_name session_id outcome now : String)
    (updates : List (String × Val))
    (hwf : ∀ st, r.get_data (get_conversation_key customer_id) = some st → IsSession st)
    (hsafe : ∀ st, r.get_data (get_conversation_key customer_id) = some st →
      ∃ st2 st3, applyUpdates st updates = some st2 ∧ touch_last_activity st2 now = some st3) :
    isOkE (get_state r customer_id now) = true
    ∧ isOkE (update_state r customer_id updates now) = true
    ∧ isOkE (start_flow r customer_id flow_name session_id now) = true
    ∧ isOkE (complete_flow r customer_id outcome now) = true := by
  obtain ⟨conn, data⟩ := r
  refine ⟨?_, ?_, ?_, ?_⟩
  · cases hg : RedisManager.get_data ⟨conn, data⟩ (get_conversation_key customer_id) with
    | none => rw [get_state_miss _ _ _ hg]; rfl
    | some st =>
      obtain ⟨cid2, sid2, cf, cstep, coll, hist, cr, la, mc, f1, f2, rfl⟩ := hwf st hg
      obtain ⟨hc, hdg⟩ := get_data_eq_some hg
      have hconn : conn = true := hc
      subst hconn
      rw [get_state_entry data customer_id now _ _ hdg rfl rfl]
      rfl
  · cases hg : RedisManager.get_data ⟨conn, data⟩ (get_conversation_key customer_id) with
    | none => rw [update_state_no_entry _ _ _ _ hg]; rfl
    | some st =>
      obtain ⟨st2, st3, happ, htouch⟩ := hsafe st hg
      obtain ⟨cid2, sid2, cf, cstep, coll, hist, cr, la, mc, f1, f2, rfl⟩ := hwf st hg
      obtain ⟨hc, hdg⟩ := get_data_eq_some hg
      have hconn : conn = true := hc
      subst hconn
      rw [update_state_entry data customer_id updates now _ st2 st3 hdg rfl happ htouch]
      rfl
  · cases hg : RedisManager.get_data ⟨conn, data⟩ (get_conversation_key customer_id) with
    | none =>
      cases conn with
      | false => rfl
      | true =>
        have hdg : dictGet data (get_conversation_key customer_id) = none := by
          simpa [RedisManager.get_data] using hg
        rw [start_flow_fresh_store data customer_id flow_name session_id now hdg]
        rfl
    | some st =>
      obtain ⟨cid2, sid2, cf, cstep, coll, hist, cr, la, mc, f1, f2, rfl⟩ := hwf st hg
      obtain ⟨hc, hdg⟩ := get_data_eq_some hg
      have hconn : conn = true := hc
      subst hconn
      rw [start_flow_existing data customer_id cid2 sid2 flow_name session_id now cf cstep
        coll hist cr la mc f1 f2 hdg]
      rfl
  · cases hg : RedisManager.get_data ⟨conn, data⟩ (get_conversation_key customer_id) with
    | none => rw [complete_flow_none _ _ _ _ hg]; rfl
    | some st =>
      obtain ⟨cid2, sid2, cf, cstep, coll, hist, cr, la, mc, f1, f2, rfl⟩ := hwf st hg
      obtain ⟨hc, hdg⟩ := get_data_eq_some hg
      have hconn : conn = true := hc
      subst hconn
      cases hcf : truthy cf with
      | false =>
        rw [complete_flow_idle data customer_id cid2 sid2 outcome now cf cstep
          coll hist cr la mc f1 f2 hdg hcf]
        rfl
      | true =>
        rw [complete_flow_active data customer_id cid2 sid2 outcome now cf cstep
          coll hist cr la mc f1 f2 hdg hcf]
        rfl

/-- Witness for C2 (amended): a concrete well-formed store and the safe
update map `metadata.message_count : 5`. -/
theorem c2_public_ops_amended_witness :
    isOkE (update_state
        ⟨true, [(get_conversation_key "cust_1", new_session_state "cust_1" "sess_1" "t0")]⟩
        "cust_1" [("metadata.message_count", Val.i 5)] "t1") = true := by
  refine (c2_public_ops_amended
    ⟨true, [(get_conversation_key "cust_1", new_session_state "cust_1" "sess_1" "t0")]⟩
    "cust_1" "support" "sess_2" "resolved" "t1"
    [("metadata.message_count", Val.i 5)] ?_ ?_).2.1
  · intro st h
    have he : RedisManager.get_data
        ⟨true, [(get_conversation_key "cust_1", new_session_state "cust_1" "sess_1" "t0")]⟩
        (get_conversation_key "cust_1") = some (new_session_state "cust_1" "sess_1" "t0") := rfl
    rw [he] at h
    injection h with h2
    subst h2
    exact ⟨"cust_1", "sess_1", .null, .null, [], [], "t0", "t0", 0, 0, 0, rfl⟩
  · intro st h
    have he : RedisManager.get_data
        ⟨true, [(get_conversation_key "cust_1", new_session_state "cust_1" "sess_1" "t0")]⟩
        (get_conversation_key "cust_1") = some (new_session_state "cust_1" "sess_1" "t0") := rfl
    rw [he] at h
    injection h with h2
    subst h2
    exact ⟨_, _, rfl, rfl⟩

theorem yes_no_disjoint (x : String) (hy : x ∈ yes_inputs) (hn : x ∈ no_inputs) : False := by
  fin_cases hy <;> exact absurd hn (by decide)

/-- The recognized-answer tail of `_handle_confirmation` over a connected
store holding an active session: the flow is completed with the given
outcome and the re-read cleared session is returned. -/
theorem finish_confirmation_active (data : List (String × Val))
    (customer_id stored_id stored_session outcome response now : String) (cf cstep : Val)
    (collected : List (String × Val)) (history : List Val) (created last_act : String)
    (mc f1 f2 : Int)
    (hget : dictGet data (get_conversation_key customer_id)
      = some (session_state stored_id stored_session cf cstep (.dict collected)
          history created last_act mc f1 f2))
    (hcf : truthy cf = true) :
    finish_confirmation ⟨true, data⟩ customer_id outcome response now
      = .ok (response,
          session_state stored_id stored_session .null .null (.dict [])
            (history ++ [flow_record cf outcome now collected]) created now mc f1 (f2 + 1),
          ⟨true, dictSet data (get_conversation_key customer_id)
            (session_state stored_id stored_session .null .null (.dict [])
              (history ++ [flow_record cf outcome now collected]) created now mc f1 (f2 + 1))⟩) := by
  have h1 := complete_flow_active data customer_id stored_id stored_session outcome now cf cstep
    collected history created last_act mc f1 f2 hget hcf
  have h2 := get_state_entry
    (dictSet data (get_conversation_key customer_id)
      (session_state stored_id stored_session .null .null (.dict [])
        (history ++ [flow_record cf outcome now collected]) created now mc f1 (f2 + 1)))
    customer_id now
    (session_state stored_id stored_session .null .null (.dict [])
      (history ++ [flow_record cf outcome now collected]) created now mc f1 (f2 + 1))
    (session_state stored_id stored_session .null .null (.dict [])
      (history ++ [flow_record cf outcome now collected]) created now mc f1 (f2 + 1))
    (dictGet_dictSet_self _ _ _) rfl rfl
  unfold finish_confirmation
  rw [h1]
  show ((match get_state
      ⟨true, dictSet data (get_conversation_key customer_id)
        (session_state stored_id stored_session .null .null (.dict [])
          (history ++ [flow_record cf outcome now collected]) created now mc f1 (f2 + 1))⟩
      customer_id now with
    | Except.error e => Except.error e
    | Except.ok (stOpt, r3) =>
      Except.ok (response, (match stOpt with
        | some st => if truthy st then st else Val.dict []
        | none => Val.dict []), r3)) : Except Unit (String × Val × RedisManager)) = _
  rw [h2]
  rw [dictSet_dictSet_self]
  rfl

/-- C8: at the support flow's confirmation step (an active flow in the
session), a "yes"-class message completes the flow with outcome
`"resolved"`, a "no"-class message with `"escalated"`; in both cases the
session entry still exists with `current_flow` null; any other message
returns the yes/no re-prompt and leaves both the passed state and the
store untouched. -/
theorem c8_confirmation_step (r : RedisManager)
    (customer_id stored_id stored_session message now : String)
    (state cf cstep : Val) (collected : List (String × Val)) (history : List Val)
    (created last_act : String) (mc f1 f2 : Int)
    (hc : r.is_connected = true)
    (hget : dictGet r.data (get_conversation_key customer_id)
      = some (session_state stored_id stored_session cf cstep (.dict collected)
          history created last_act mc f1 f2))
    (hcf : truthy cf = true) :
    (lower_strip message ∈ yes_inputs →
      handle_confirmation r customer_id message state now
        = .ok (confirm_yes_response,
            session_state stored_id stored_session .null .null (.dict [])
              (history ++ [flow_record cf "resolved" now collected]) created now mc f1 (f2 + 1),
            ⟨true, dictSet r.data (get_conversation_key customer_id)
              (session_state stored_id stored_session .null .null (.dict [])
                (history ++ [flow_record cf "resolved" now collected])
                created now mc f1 (f2 + 1))⟩))
    ∧ (lower_strip message ∈ no_inputs →
      handle_confirmation r customer_id message state now
        = .ok (confirm_no_response,
            session_state stored_id stored_session .null .null (.dict [])
              (history ++ [flow_record cf "escalated" now collected]) created now mc f1 (f2 + 1),
            ⟨true, dictSet r.data (get_conversation_key customer_id)
              (session_state stored_id stored_session .null .null (.dict [])
                (history ++ [flow_record cf "escalated" now collected])
                created now mc f1 (f2 + 1))⟩))
    ∧ (lower_strip message ∉ yes_inputs → lower_strip message ∉ no_inputs →
      handle_confirmation r customer_id message state now
        = .ok (confirm_retry_response, state, r)) := by
  obtain ⟨conn, data⟩ := r
  have hconn : conn = true := hc
  subst hconn
  refine ⟨?_, ?_, ?_⟩
  · intro hyes
    unfold handle_confirmation
    rw [if_pos hyes]
    exact finish_confirmation_active data customer_id stored_id stored_session "resolved"
      confirm_yes_response now cf cstep collected history created last_act mc f1 f2 hget hcf
  · intro hno
    have hny : lower_strip message ∉ yes_inputs := fun hy => yes_no_disjoint _ hy hno
    unfold handle_confirmation
    rw [if_neg hny, if_pos hno]
    exact finish_confirmation_active data customer_id stored_id stored_session "escalated"
      confirm_no_response now cf cstep collected history created last_act mc f1 f2 hget hcf
  · intro hny hno
    unfold handle_confirmation
    rw [if_neg hny, if_neg hno]

/-- Witness for C8 at a concrete active session: the message `"Yes "`
(case and spacing normalized away) resolves the flow. -/
theorem c8_confirmation_step_witness :
    handle_confirmation
        ⟨true, [(get_conversation_key "cust_1",
          session_state "cust_1" "sess_1" (.s "support") (.s "5_confirmation")
            (.dict []) [] "t0" "t0" 3 1 0)]⟩
        "cust_1" "Yes " (Val.dict []) "t1"
      = .ok (confirm_yes_response,
          session_state "cust_1" "sess_1" .null .null (.dict [])
            [flow_record (.s "support") "resolved" "t1" []] "t0" "t1" 3 1 1,
          ⟨true, [(get_conversation_key "cust_1",
            session_state "cust_1" "sess_1" .null .null (.dict [])
              [flow_record (.s "support") "resolved" "t1" []] "t0" "t1" 3 1 1)]⟩) :=
  (c8_confirmation_step
    ⟨true, [(get_conversation_key "cust_1",
      session_state "cust_1" "sess_1" (.s "support") (.s "5_confirmation")
        (.dict []) [] "t0" "t0" 3 1 0)]⟩
    "cust_1" "cust_1" "sess_1" "Yes " "t1" (Val.dict []) (.s "support") (.s "5_confirmation")
    [] [] "t0" "t0" 3 1 0 rfl rfl rfl).1 (by decide)

/-- C6 counterexample: the code removes every occurrence of the substring
`whatsapp:` (Python `str.replace`), not only a leading prefix.  On
`"12whatsapp:34567890"` the code yields `"+11234567890"` while the
function the claim describes (strip the prefix, then `+`, spaces and
hyphens) yields `"+12whatsapp:34567890"`. -/
theorem c6_counterexample :
    normalize_phone_number (some "12whatsapp:34567890") = some "+11234567890"
    ∧ claim_normalize_phone (some "12whatsapp:34567890") = some "+12whatsapp:34567890"
    ∧ normalize_phone_number (some "12whatsapp:34567890")
        ≠ claim_normalize_phone (some "12whatsapp:34567890") :=
  ⟨by decide, by decide, by decide⟩

/-- C6 (amended): phone normalization returns null on a null or empty
input; otherwise it removes every occurrence of the substring
`whatsapp:` and every `+`, space and hyphen, prepends the default
country-code digit `1` exactly when the remaining string has exactly 10
characters, and returns the result prefixed with `+` — i.e. the source
normalizer coincides with `claim_normalize_phone_amended`, written from
those words, on every input. -/
theorem c6_normalize_amended (phone : Option String) :
    normalize_phone_number phone = claim_normalize_phone_amended phone := by
  cases phone with
  | none => rfl
  | some p => simp only [normalize_phone_number, claim_normalize_phone_amended, remove_tag_eq]

/-- C1: two phone-shaped inputs that normalize to the same canonical
form, each fed to the resolver either as the plain phone or as the
WhatsApp handle, yield the same customer id: the first call creates the
single record and the second resolves to it. -/
theorem c1_phone_canonical_dedup (p1 p2 np : String) (b1 b2 : Bool)
    (h1 : normalize_phone_number (some p1) = some np)
    (h2 : normalize_phone_number (some p2) = some np) :
    (phone_only_call NewCustomerManager.empty p1 b1).2.customers.length = 1
    ∧ ((phone_only_call (phone_only_call NewCustomerManager.empty p1 b1).2 p2 b2).1).id
        = ((phone_only_call NewCustomerManager.empty p1 b1).1).id
    ∧ (phone_only_call (phone_only_call NewCustomerManager.empty p1 b1).2 p2 b2).2.customers.length
        = 1 := by
  have hne := normalize_ne_empty h1
  have hbne : (np != "") = true := by simpa [bne_iff_ne] using hne
  have hnone : normalize_phone_number none = none := rfl
  cases b1 <;> cases b2 <;>
    simp [phone_only_call, new_find_or_create_customer, NewCustomerManager.empty,
      h1, h2, hnone, hbne, phone_scan, phone_scan_one, backfill_phone_match, py_truthy_str]

/-- Witness for C1 at the three spellings from the specification. -/
theorem c1_phone_canonical_dedup_witness :
    (phone_only_call NewCustomerManager.empty "whatsapp:+1234567890" true).2.customers.length = 1
    ∧ ((phone_only_call (phone_only_call NewCustomerManager.empty "whatsapp:+1234567890" true).2
        "+1234567890" false).1).id
      = ((phone_only_call NewCustomerManager.empty "whatsapp:+1234567890" true).1).id
    ∧ (phone_only_call (phone_only_call NewCustomerManager.empty "whatsapp:+1234567890" true).2
        "+1234567890" false).2.customers.length = 1 :=
  c1_phone_canonical_dedup "whatsapp:+1234567890" "+1234567890" "+11234567890" true false
    (by decide) (by decide)

/-- What the email-branch backfill does to a record with a falsy phone
field: the phone is filled with the normalized input and the WhatsApp
field is filled only when it was falsy and the input truthy. -/
theorem backfill_email_match_spec (c : Customer) (nw : Option String) (np : String)
    (hnp : (np != "") = true) (hcp : py_truthy_str c.phone = false) :
    backfill_email_match c nw (some np)
      = { c with
          phone := some np,
          whatsapp_phone :=
            if py_truthy_str nw = true ∧ py_truthy_str c.whatsapp_phone = false
            then nw else c.whatsapp_phone } := by
  have hsome : py_truthy_str (some np) = true := by simp [py_truthy_str, hnp]
  unfold backfill_email_match
  cases hwv : py_truthy_str nw <;> cases hcw : py_truthy_str c.whatsapp_phone <;>
    simp [hwv, hcw, hcp, hsome]

/-- C5: when the first email match in the customer list has a falsy phone
field, `new_find_or_create_customer(email = E, phone = P, ...)` resolves
to that record (no new record is created), after which its phone equals
`normalize(P)`, its email is still `E`, and a populated WhatsApp field is
never overwritten. -/
theorem c5_email_backfill (m : NewCustomerManager) (e p : String) (w : Option String)
    (pre post : List Customer) (c : Customer)
    (hm : m.customers = pre ++ c :: post)
    (hpre : ∀ c2 ∈ pre, c2.email ≠ some e)
    (hce : c.email = some e)
    (hcp : py_truthy_str c.phone = false)
    (he : e ≠ "") (hp : p ≠ "") :
    ((new_find_or_create_customer m (some e) (some p) w).1).id = c.id
    ∧ ((new_find_or_create_customer m (some e) (some p) w).1).email = some e
    ∧ ((new_find_or_create_customer m (some e) (some p) w).1).phone
        = normalize_phone_number (some p)
    ∧ ((new_find_or_create_customer m (some e) (some p) w).2).customers.length
        = m.customers.length
    ∧ (py_truthy_str c.whatsapp_phone = true →
      ((new_find_or_create_customer m (some e) (some p) w).1).whatsapp_phone
        = c.whatsapp_phone) := by
  obtain ⟨np, hnp, hnpne⟩ := normalize_some_of_ne p hp
  have hbne : (e != "") = true := by simpa [bne_iff_ne] using he
  have hnpbne : (np != "") = true := by simpa [bne_iff_ne] using hnpne
  have hescan := email_scan_app e (normalize_phone_number w) (some np) pre post c hpre hce
  have hkey : new_find_or_create_customer m (some e) (some p) w
      = (backfill_email_match c (normalize_phone_number w) (some np),
        { m with customers :=
          pre ++ backfill_email_match c (normalize_phone_number w) (some np) :: post }) := by
    unfold new_find_or_create_customer
    simp only [hnp, hm, hbne, if_true, hescan]
  rw [hkey, hnp, backfill_email_match_spec c (normalize_phone_number w) np hnpbne hcp]
  refine ⟨rfl, hce, rfl, by simp [hm], ?_⟩
  intro hcw
  simp [hcw]

/-- Witness for C5: a record found by email with an empty phone field is
backfilled with the normalized phone and keeps its email. -/
theorem c5_email_backfill_witness :
    ((new_find_or_create_customer
        ⟨[⟨1, some "john@example.com", none, none, 0, 0⟩], [], 2⟩
        (some "john@example.com") (some "1234567890") none).1).id = 1
    ∧ ((new_find_or_create_customer
        ⟨[⟨1, some "john@example.com", none, none, 0, 0⟩], [], 2⟩
        (some "john@example.com") (some "1234567890") none).1).email = some "john@example.com"
    ∧ ((new_find_or_create_customer
        ⟨[⟨1, some "john@example.com", none, none, 0, 0⟩], [], 2⟩
        (some "john@example.com") (some "1234567890") none).1).phone = some "+11234567890"
    ∧ ((new_find_or_create_customer
        ⟨[⟨1, some "john@example.com", none, none, 0, 0⟩], [], 2⟩
        (some "john@example.com") (some "1234567890") none).2).customers.length = 1 := by
  have h := c5_email_backfill
    ⟨[⟨1, some "john@example.com", none, none, 0, 0⟩], [], 2⟩
    "john@example.com" "1234567890" none [] []
    ⟨1, some "john@example.com", none, none, 0, 0⟩
    rfl (by simp) rfl rfl (by decide) (by decide)
  exact ⟨h.1, h.2.1, h.2.2.1, h.2.2.2.1⟩
